import Mathlib

/-!
Shallow embedding of `os.h` (cross-platform memory allocation and read-only
file mapping, Windows and POSIX backends).

Modelling conventions:
- Pointers are `Nat`; `0` models the C null pointer `NULL`.
- `Bytes` mirrors `typedef struct { Uint8 *base; Uint64 size; } Bytes;`.
- Each native OS call is an oracle: the `Env` structure fixes the outcome of
  every native call an operation might make.  The operations are then
  deterministic functions of their C arguments, the compile-time
  configuration, and the `Env`.
- `OpResult` records the observable outcome of one call to an operation:
  the C `Bool` return value, whether and with what value the out-parameter
  was written (`none` = the struct was never written), the number of
  reporter (`TRACE_ERROR` / `TraceError`) invocations, and the ordered list
  of native calls the operation performed.  On the Windows backend
  `TraceError` invokes the `TRACE_ERROR` sink exactly once on both of its
  internal branches (lines 89-114), so every error path counts as one
  reporter invocation.
- `GetFileSize(hFile, NULL)` (Win32, `fileapi.h`): on success the return
  value is the low-order doubleword of the file size; on failure it is
  `INVALID_FILE_SIZE` (`0xFFFFFFFF`).  The caller passes `NULL` for the
  high doubleword, so the source sees only this 32-bit value; this is
  encoded by `winGetFileSize`.
- `mmap` returns `MAP_FAILED` (not `NULL`) on failure, modelled by
  `Option Nat` with `none` = `MAP_FAILED`; `VirtualAlloc` and
  `MapViewOfFile` return `NULL` on failure, modelled by the value `0`.
- The compile-time switches `UNICODE` and `LARGE_PAGES` are the `Config`
  parameters `unicode` and `largePages`.
-/

namespace OsH

/-- Mirrors `typedef struct { Uint8 *base; Uint64 size; } Bytes;` with
`base = 0` standing for the null pointer. -/
structure Bytes where
  base : Nat
  size : Nat
  deriving DecidableEq

/-- One native OS call, with the arguments the source passes and the outcome
the oracle assigned to it. -/
inductive NativeCall where
  /-- `MultiByteToWideChar` path widening (Windows, `UNICODE` builds only). -/
  | widenPath (ok : Bool)
  /-- `CreateFile` / `open`. -/
  | openFile (ok : Bool)
  /-- `GetFileSize(hFile, NULL)` (Windows); `ret` is the returned DWORD. -/
  | sizeQuery (ret : Nat)
  /-- `fstat` (POSIX); `ok` is whether it returned 0, `size` is `st.st_size`. -/
  | fstatCall (ok : Bool) (size : Nat)
  /-- `CreateFileMapping` (Windows); `huge` records `SEC_LARGE_PAGES`. -/
  | createMapping (huge : Bool) (ok : Bool)
  /-- `MapViewOfFile` (Windows); `ret = 0` is the NULL failure return. -/
  | mapView (ret : Nat)
  /-- `mmap` over an open fd (POSIX); `huge` records `MAP_HUGETLB`. -/
  | mmapFile (huge : Bool) (ret : Option Nat)
  /-- `VirtualAlloc` (Windows); `huge` records `MEM_LARGE_PAGES`; `ret = 0`
  is the NULL failure return. -/
  | virtualAlloc (huge : Bool) (ret : Nat)
  /-- Anonymous `mmap` (POSIX); `huge` records `MAP_HUGETLB`. -/
  | mmapAlloc (huge : Bool) (ret : Option Nat)
  /-- `VirtualFree(base, 0, MEM_RELEASE)` (Windows). -/
  | virtualFree (base : Nat) (ok : Bool)
  /-- `munmap(base, size)` (POSIX). -/
  | munmap (base : Nat) (size : Nat) (ok : Bool)
  /-- `UnmapViewOfFile(base)` (Windows). -/
  | unmapView (base : Nat) (ok : Bool)
  /-- `CloseHandle` / `close`. -/
  | closeHandle
  deriving DecidableEq

/-- Observable outcome of one operation call: C boolean result, the
out-parameter write (`none` = never written), the number of reporter
invocations, and the native calls performed, in order. -/
structure OpResult where
  ok : Bool
  out : Option Bytes
  errors : Nat
  calls : List NativeCall
  deriving DecidableEq

/-- Compile-time configuration: `UNICODE` and `LARGE_PAGES`. -/
structure Config where
  unicode : Bool
  largePages : Bool
  deriving DecidableEq

/-- The oracle fixing the outcome of every native call an operation might
make.  Release-call outcomes are functions of the arguments the source
passes to the native call. -/
structure Env where
  /-- Outcome of `MultiByteToWideChar` (Windows `UNICODE` builds). -/
  widenOk : Bool
  /-- Outcome of `CreateFile` / `open`. -/
  openOk : Bool
  /-- Whether the native size query (`GetFileSize` / `fstat`) succeeds. -/
  sizeQueryOk : Bool
  /-- The file's actual length in bytes. -/
  fileSize : Nat
  /-- Outcome of `CreateFileMapping` (Windows). -/
  createMappingOk : Bool
  /-- Return of `MapViewOfFile` (Windows); `0` = NULL = failure. -/
  mapViewRet : Nat
  /-- Return of file-backed `mmap` (POSIX); `none` = `MAP_FAILED`. -/
  mmapFileRet : Option Nat
  /-- Return of `VirtualAlloc` (Windows); `0` = NULL = failure. -/
  virtualAllocRet : Nat
  /-- Return of anonymous `mmap` (POSIX); `none` = `MAP_FAILED`. -/
  mmapAllocRet : Option Nat
  /-- Outcome of `VirtualFree(base, 0, MEM_RELEASE)` given `base`. -/
  virtualFreeOk : Nat → Bool
  /-- Outcome of `munmap(base, size)` given `base` and `size`. -/
  munmapOk : Nat → Nat → Bool
  /-- Outcome of `UnmapViewOfFile(base)` given `base`. -/
  unmapViewOk : Nat → Bool

/-- `GetFileSize(hFile, NULL)`: the low-order doubleword of the file size on
success, `INVALID_FILE_SIZE = 0xFFFFFFFF` on failure.  The source receives
only this DWORD (it passes `NULL` for the high doubleword). -/
def winGetFileSize (e : Env) : Nat :=
  if e.sizeQueryOk then e.fileSize % 2 ^ 32 else 0xFFFFFFFF

/-- Windows `Alloc` (os.h lines 116-138): one `VirtualAlloc` with
`MEM_RESERVE | MEM_COMMIT` (plus `MEM_LARGE_PAGES` under `LARGE_PAGES`);
on NULL return, `TraceError` and `FALSE`; otherwise write the out-struct
and return `TRUE`. -/
def winAlloc (cfg : Config) (size : Nat) (e : Env) : OpResult :=
  if e.virtualAllocRet = 0 then
    { ok := false, out := none, errors := 1,
      calls := [NativeCall.virtualAlloc cfg.largePages 0] }
  else
    { ok := true, out := some { base := e.virtualAllocRet, size := size },
      errors := 0,
      calls := [NativeCall.virtualAlloc cfg.largePages e.virtualAllocRet] }

/-- POSIX `Alloc` (os.h lines 247-271): one anonymous `mmap` (plus
`MAP_HUGETLB` under `LARGE_PAGES`); on `MAP_FAILED`, `TRACE_ERROR` and
`FALSE`; otherwise write the out-struct and return `TRUE`. -/
def posixAlloc (lp : Bool) (size : Nat) (e : Env) : OpResult :=
  match e.mmapAllocRet with
  | none =>
    { ok := false, out := none, errors := 1,
      calls := [NativeCall.mmapAlloc lp none] }
  | some b =>
    { ok := true, out := some { base := b, size := size }, errors := 0,
      calls := [NativeCall.mmapAlloc lp (some b)] }

/-- Windows `Free` (os.h lines 140-147): `VirtualFree(bytes.base, 0,
MEM_RELEASE)`; the region's `size` field is never read. -/
def winFree (r : Bytes) (e : Env) : OpResult :=
  if e.virtualFreeOk r.base then
    { ok := true, out := none, errors := 0,
      calls := [NativeCall.virtualFree r.base true] }
  else
    { ok := false, out := none, errors := 1,
      calls := [NativeCall.virtualFree r.base false] }

/-- POSIX `Free` (os.h lines 273-280): `munmap(bytes.base, bytes.size)`. -/
def posixFree (r : Bytes) (e : Env) : OpResult :=
  if e.munmapOk r.base r.size then
    { ok := true, out := none, errors := 0,
      calls := [NativeCall.munmap r.base r.size true] }
  else
    { ok := false, out := none, errors := 1,
      calls := [NativeCall.munmap r.base r.size false] }

/-- Windows `MapFile` (os.h lines 149-222), path by path:
`MultiByteToWideChar` (UNICODE builds) failing returns `FALSE`;
`CreateFile` failing returns `FALSE`; `GetFileSize(hFile, NULL) == 0`
closes the handle and returns the empty sentinel with `TRUE`;
`CreateFileMapping` failing closes the file handle and returns `FALSE`;
`MapViewOfFile` returning NULL closes both handles and returns `FALSE`;
otherwise the out-struct receives the view base and a second
`GetFileSize` value, both handles are closed, and `TRUE` is returned.
Note the source compares the `GetFileSize` DWORD only against `0`: the
failure return `INVALID_FILE_SIZE` is never checked for. -/
def winMapFile (cfg : Config) (e : Env) : OpResult :=
  let pre : List NativeCall :=
    if cfg.unicode then [NativeCall.widenPath e.widenOk] else []
  if cfg.unicode && !e.widenOk then
    { ok := false, out := none, errors := 1, calls := pre }
  else if !e.openOk then
    { ok := false, out := none, errors := 1,
      calls := pre ++ [NativeCall.openFile false] }
  else if winGetFileSize e = 0 then
    { ok := true, out := some { base := 0, size := 0 }, errors := 0,
      calls := pre ++ [NativeCall.openFile true,
        NativeCall.sizeQuery (winGetFileSize e), NativeCall.closeHandle] }
  else if !e.createMappingOk then
    { ok := false, out := none, errors := 1,
      calls := pre ++ [NativeCall.openFile true,
        NativeCall.sizeQuery (winGetFileSize e),
        NativeCall.createMapping cfg.largePages false,
        NativeCall.closeHandle] }
  else if e.mapViewRet = 0 then
    { ok := false, out := none, errors := 1,
      calls := pre ++ [NativeCall.openFile true,
        NativeCall.sizeQuery (winGetFileSize e),
        NativeCall.createMapping cfg.largePages true,
        NativeCall.mapView 0, NativeCall.closeHandle,
        NativeCall.closeHandle] }
  else
    { ok := true,
      out := some { base := e.mapViewRet, size := winGetFileSize e },
      errors := 0,
      calls := pre ++ [NativeCall.openFile true,
        NativeCall.sizeQuery (winGetFileSize e),
        NativeCall.createMapping cfg.largePages true,
        NativeCall.mapView e.mapViewRet,
        NativeCall.sizeQuery (winGetFileSize e),
        NativeCall.closeHandle, NativeCall.closeHandle] }

/-- POSIX `MapFile` (os.h lines 282-332), path by path: `open` failing
returns `FALSE`; `fstat` failing closes the fd and returns `FALSE`;
`st.st_size == 0` closes the fd and returns the empty sentinel with
`TRUE`; `mmap` failing closes the fd and returns `FALSE`; otherwise the
out-struct receives the mapping base and `st.st_size`, the fd is closed,
and `TRUE` is returned. -/
def posixMapFile (lp : Bool) (e : Env) : OpResult :=
  if !e.openOk then
    { ok := false, out := none, errors := 1,
      calls := [NativeCall.openFile false] }
  else if !e.sizeQueryOk then
    { ok := false, out := none, errors := 1,
      calls := [NativeCall.openFile true, NativeCall.fstatCall false 0,
        NativeCall.closeHandle] }
  else if e.fileSize = 0 then
    { ok := true, out := some { base := 0, size := 0 }, errors := 0,
      calls := [NativeCall.openFile true, NativeCall.fstatCall true 0,
        NativeCall.closeHandle] }
  else
    match e.mmapFileRet with
    | none =>
      { ok := false, out := none, errors := 1,
        calls := [NativeCall.openFile true,
          NativeCall.fstatCall true e.fileSize,
          NativeCall.mmapFile lp none, NativeCall.closeHandle] }
    | some b =>
      { ok := true, out := some { base := b, size := e.fileSize },
        errors := 0,
        calls := [NativeCall.openFile true,
          NativeCall.fstatCall true e.fileSize,
          NativeCall.mmapFile lp (some b), NativeCall.closeHandle] }

/-- Windows `UnmapFile` (os.h lines 224-236): if `fileMap.size == 0`,
return `TRUE` with no native call; otherwise `UnmapViewOfFile(base)`. -/
def winUnmapFile (r : Bytes) (e : Env) : OpResult :=
  if r.size = 0 then
    { ok := true, out := none, errors := 0, calls := [] }
  else if e.unmapViewOk r.base then
    { ok := true, out := none, errors := 0,
      calls := [NativeCall.unmapView r.base true] }
  else
    { ok := false, out := none, errors := 1,
      calls := [NativeCall.unmapView r.base false] }

/-- POSIX `UnmapFile` (os.h lines 334-345): if `fileMap.base == NULL`,
return `TRUE` with no native call; otherwise `munmap(base, size)`. -/
def posixUnmapFile (r : Bytes) (e : Env) : OpResult :=
  if r.base = 0 then
    { ok := true, out := none, errors := 0, calls := [] }
  else if e.munmapOk r.base r.size then
    { ok := true, out := none, errors := 0,
      calls := [NativeCall.munmap r.base r.size true] }
  else
    { ok := false, out := none, errors := 1,
      calls := [NativeCall.munmap r.base r.size false] }

/-- The designated empty sentinel region. -/
def sentinel : Bytes := { base := 0, size := 0 }

/-- Calls that attempt a native memory mapping (mapping-object creation or
view establishment on Windows, file-backed `mmap` on POSIX). -/
def isMappingCall : NativeCall → Bool
  | NativeCall.createMapping _ _ => true
  | NativeCall.mapView _ => true
  | NativeCall.mmapFile _ _ => true
  | _ => false

/-- Calls that release a native mapping or allocation. -/
def isReleaseCall : NativeCall → Bool
  | NativeCall.virtualFree _ _ => true
  | NativeCall.munmap _ _ _ => true
  | NativeCall.unmapView _ _ => true
  | _ => false

/-- Calls that successfully acquire a closeable native handle (an opened
file handle or a created mapping object). -/
def acquiresHandle : NativeCall → Bool
  | NativeCall.openFile ok => ok
  | NativeCall.createMapping _ ok => ok
  | _ => false

/-- `CloseHandle` / `close`. -/
def isCloseCall : NativeCall → Bool
  | NativeCall.closeHandle => true
  | _ => false

/-- Calls that leave memory bound in the address space on success: a
successful view, file mapping, or allocation. -/
def liveAcquire : NativeCall → Bool
  | NativeCall.mapView ret => decide (ret ≠ 0)
  | NativeCall.mmapFile _ ret => ret.isSome
  | NativeCall.virtualAlloc _ ret => decide (ret ≠ 0)
  | NativeCall.mmapAlloc _ ret => ret.isSome
  | _ => false

/-- Calls that attempt an allocation or mapping with standard (non-huge)
pages. -/
def stdPageAttempt : NativeCall → Bool
  | NativeCall.createMapping huge _ => !huge
  | NativeCall.mmapFile huge _ => !huge
  | NativeCall.virtualAlloc huge _ => !huge
  | NativeCall.mmapAlloc huge _ => !huge
  | _ => false

/-- Calls that attempt to allocate anonymous memory. -/
def isAllocAttempt : NativeCall → Bool
  | NativeCall.virtualAlloc _ _ => true
  | NativeCall.mmapAlloc _ _ => true
  | _ => false

/-- Constructor index, used to count how often each kind of native call
occurs in a trace. -/
def kindIdx : NativeCall → Nat
  | NativeCall.widenPath _ => 0
  | NativeCall.openFile _ => 1
  | NativeCall.sizeQuery _ => 2
  | NativeCall.fstatCall _ _ => 3
  | NativeCall.createMapping _ _ => 4
  | NativeCall.mapView _ => 5
  | NativeCall.mmapFile _ _ => 6
  | NativeCall.virtualAlloc _ _ => 7
  | NativeCall.mmapAlloc _ _ => 8
  | NativeCall.virtualFree _ _ => 9
  | NativeCall.munmap _ _ _ => 10
  | NativeCall.unmapView _ _ => 11
  | NativeCall.closeHandle => 12

/-- No-retry discipline: every kind of native call other than the Windows
size query (read twice by the source on the success path) and handle
closing occurs at most once in the trace, so no failed native call is
ever attempted a second time. -/
def noRetry (l : List NativeCall) : Prop :=
  ∀ k < 13, k ≠ 2 → k ≠ 12 → (l.map kindIdx).count k ≤ 1

instance (l : List NativeCall) : Decidable (noRetry l) := by
  unfold noRetry; infer_instance

/-- The observable behavior of one operation call: boolean result,
out-parameter write, reporter invocations. -/
def obs (r : OpResult) : Bool × Option Bytes × Nat := (r.ok, r.out, r.errors)

/-- Reporter discipline: one reporter invocation exactly when the call
fails, none when it succeeds. -/
def reporterSpec (r : OpResult) : Prop :=
  r.errors = if r.ok then 0 else 1

instance (r : OpResult) : Decidable (reporterSpec r) := by
  unfold reporterSpec; infer_instance

/-- A concrete oracle on which every native call succeeds; the file is 5
bytes long, views land at 4096, allocations at 8192. -/
def envAll : Env where
  widenOk := true
  openOk := true
  sizeQueryOk := true
  fileSize := 5
  createMappingOk := true
  mapViewRet := 4096
  mmapFileRet := some 4096
  virtualAllocRet := 8192
  mmapAllocRet := some 8192
  virtualFreeOk := fun _ => true
  munmapOk := fun _ _ => true
  unmapViewOk := fun _ => true

/-- As `envAll`, but the file is empty. -/
def envZeroFile : Env := { envAll with fileSize := 0 }

/-- As `envAll`, but every native release call fails. -/
def envUnmapFail : Env :=
  { envAll with
    virtualFreeOk := fun _ => false
    munmapOk := fun _ _ => false
    unmapViewOk := fun _ => false }

/-- As `envAll`, but the native size query fails (`fstat` returns -1;
`GetFileSize` returns `INVALID_FILE_SIZE`). -/
def envStatFail : Env := { envAll with sizeQueryOk := false }

/-- As `envAll`, but the file is exactly 2^32 bytes long. -/
def envBigFile : Env := { envAll with fileSize := 2 ^ 32 }

/-- As `envAll`, but the native allocation calls fail. -/
def envAllocFail : Env :=
  { envAll with virtualAllocRet := 0, mmapAllocRet := none }

/-- As `envAll`, but mapping-object creation and file-backed `mmap` fail. -/
def envMapFail : Env :=
  { envAll with createMappingOk := false, mmapFileRet := none }

/-- As `envAll`, but `MapViewOfFile` returns NULL and file-backed `mmap`
fails. -/
def envViewFail : Env :=
  { envAll with mapViewRet := 0, mmapFileRet := none }

/-- As `envAll`, but `munmap` succeeds exactly when the size argument it
receives is 1. -/
def envSizeOne : Env :=
  { envAll with munmapOk := fun _ s => s = 1 }

/-- C1: on both backends, when the file's size is determined to be zero
(the size query succeeds and reports length 0), `MapFile` returns TRUE,
writes the empty sentinel (`base = null`, `size = 0`) to the output
region, and attempts no native memory-mapping call. -/
theorem c1_zero_size_success (cfg : Config) (lp : Bool) (e : Env)
    (hopen : e.openOk = true) (hw : cfg.unicode = true → e.widenOk = true)
    (hsq : e.sizeQueryOk = true) (hfs : e.fileSize = 0) :
    ((winMapFile cfg e).ok = true ∧ (winMapFile cfg e).out = some sentinel ∧
      (winMapFile cfg e).calls.countP isMappingCall = 0) ∧
    ((posixMapFile lp e).ok = true ∧
      (posixMapFile lp e).out = some sentinel ∧
      (posixMapFile lp e).calls.countP isMappingCall = 0) := by
  have hg : winGetFileSize e = 0 := by simp [winGetFileSize, hsq, hfs]
  constructor
  · by_cases hu : cfg.unicode = true
    · simp [winMapFile, hu, hw hu, hopen, hg, sentinel, isMappingCall]
    · simp [winMapFile, hu, hopen, hg, sentinel, isMappingCall]
  · simp [posixMapFile, hopen, hsq, hfs, sentinel, isMappingCall]

/-- C1 witness: concrete zero-length file, UNICODE + LARGE_PAGES Windows
build and huge-page POSIX build, all hypotheses discharged. -/
theorem c1_zero_size_success_witness :
    ((winMapFile { unicode := true, largePages := true } envZeroFile).ok =
        true ∧
      (winMapFile { unicode := true, largePages := true } envZeroFile).out =
        some sentinel ∧
      (winMapFile { unicode := true, largePages := true }
          envZeroFile).calls.countP isMappingCall = 0) ∧
    ((posixMapFile true envZeroFile).ok = true ∧
      (posixMapFile true envZeroFile).out = some sentinel ∧
      (posixMapFile true envZeroFile).calls.countP isMappingCall = 0) :=
  c1_zero_size_success { unicode := true, largePages := true } true
    envZeroFile rfl (fun _ => rfl) rfl rfl

/-- C2 counterexample: the region `{base = 4096, size = 0}` is not the
empty sentinel (its base is non-null), and the native view-release call
would fail in this environment, yet the Windows `UnmapFile` returns TRUE
and performs no native call at all — contradicting the claim that every
non-sentinel region gets the native view-release call whose success
determines the result. -/
theorem c2_counterexample :
    (winUnmapFile { base := 4096, size := 0 } envUnmapFail).ok = true ∧
    (winUnmapFile { base := 4096, size := 0 } envUnmapFail).calls = [] ∧
    ({ base := 4096, size := 0 } : Bytes) ≠ sentinel ∧
    envUnmapFail.unmapViewOk 4096 = false := by
  refine ⟨rfl, rfl, ?_, rfl⟩
  decide

/-- C2 amended: restricted to regions satisfying the data-model invariant
(`size = 0` iff `base = null`): for the sentinel, both backends return
TRUE with no native call; for any other such region, each backend performs
exactly its one native release call and returns TRUE exactly when that
call succeeds. -/
theorem c2_unmap_protocol (r : Bytes) (e : Env)
    (hinv : r.size = 0 ↔ r.base = 0) :
    (r = sentinel →
      (winUnmapFile r e).ok = true ∧ (winUnmapFile r e).calls = [] ∧
      (posixUnmapFile r e).ok = true ∧ (posixUnmapFile r e).calls = []) ∧
    (r ≠ sentinel →
      (winUnmapFile r e).calls =
        [NativeCall.unmapView r.base (e.unmapViewOk r.base)] ∧
      (winUnmapFile r e).ok = e.unmapViewOk r.base ∧
      (posixUnmapFile r e).calls =
        [NativeCall.munmap r.base r.size (e.munmapOk r.base r.size)] ∧
      (posixUnmapFile r e).ok = e.munmapOk r.base r.size) := by
  constructor
  · rintro rfl
    simp [winUnmapFile, posixUnmapFile, sentinel]
  · intro hne
    have hs : ¬ r.size = 0 := by
      intro h0
      exact hne (by
        obtain ⟨b, s⟩ := r
        simp only [sentinel]
        simp only at h0 hinv
        simp [h0, hinv.mp h0])
    have hb : ¬ r.base = 0 := fun h0 => hs (hinv.mpr h0)
    refine ⟨?_, ?_, ?_, ?_⟩ <;>
      · simp only [winUnmapFile, posixUnmapFile, if_neg hs, if_neg hb]
        cases hv : e.unmapViewOk r.base <;>
          cases hm : e.munmapOk r.base r.size <;> simp [hv, hm]

/-- C2 witness: a concrete non-sentinel region satisfying the invariant,
in an environment where the release calls fail: both backends perform the
one release call and return FALSE. -/
theorem c2_unmap_protocol_witness :
    (winUnmapFile { base := 4096, size := 7 } envUnmapFail).calls =
      [NativeCall.unmapView 4096 (envUnmapFail.unmapViewOk 4096)] ∧
    (winUnmapFile { base := 4096, size := 7 } envUnmapFail).ok =
      envUnmapFail.unmapViewOk 4096 ∧
    (posixUnmapFile { base := 4096, size := 7 } envUnmapFail).calls =
      [NativeCall.munmap 4096 7 (envUnmapFail.munmapOk 4096 7)] ∧
    (posixUnmapFile { base := 4096, size := 7 } envUnmapFail).ok =
      envUnmapFail.munmapOk 4096 7 :=
  (c2_unmap_protocol { base := 4096, size := 7 } envUnmapFail
    (by decide)).2 (by decide)

/-- A failing call left everything clean: the out-parameter was never
written, every successfully acquired native handle was closed, and no
successful view, file mapping, or allocation is present in the trace. -/
def cleanOnFailure (res : OpResult) : Prop :=
  res.out = none ∧
  res.calls.countP acquiresHandle = res.calls.countP isCloseCall ∧
  res.calls.countP liveAcquire = 0

instance (res : OpResult) : Decidable (cleanOnFailure res) := by
  unfold cleanOnFailure; infer_instance

/-- C4: on both backends, every failing `Alloc` or `MapFile` call leaves no
resource half-acquired — each handle it opened is closed before the call
returns, no successful allocation or view remains — and the caller's
output struct is never written. -/
theorem c4_failure_cleanup (cfg : Config) (lp : Bool) (size : Nat)
    (e : Env) :
    ((winAlloc cfg size e).ok = false →
      cleanOnFailure (winAlloc cfg size e)) ∧
    ((posixAlloc lp size e).ok = false →
      cleanOnFailure (posixAlloc lp size e)) ∧
    ((winMapFile cfg e).ok = false → cleanOnFailure (winMapFile cfg e)) ∧
    ((posixMapFile lp e).ok = false →
      cleanOnFailure (posixMapFile lp e)) := by
  refine ⟨?_, ?_, ?_, ?_⟩
  · by_cases hv : e.virtualAllocRet = 0 <;>
      simp [winAlloc, hv, cleanOnFailure, acquiresHandle, isCloseCall,
        liveAcquire, List.countP_cons, List.countP_nil]
  · cases hma : e.mmapAllocRet <;>
      simp [posixAlloc, hma, cleanOnFailure, acquiresHandle, isCloseCall,
        liveAcquire, List.countP_cons, List.countP_nil]
  · rcases cfg with ⟨u, lpw⟩
    cases u <;> cases hw : e.widenOk <;> cases ho : e.openOk <;>
      by_cases hg : winGetFileSize e = 0 <;>
      cases hc : e.createMappingOk <;>
      by_cases hm : e.mapViewRet = 0 <;>
      simp_all [winMapFile, cleanOnFailure, acquiresHandle, isCloseCall,
        liveAcquire, List.countP_cons, List.countP_nil]
  · cases ho : e.openOk <;> cases hsq : e.sizeQueryOk <;>
      by_cases hz : e.fileSize = 0 <;> cases hmf : e.mmapFileRet <;>
      simp_all [posixMapFile, cleanOnFailure, acquiresHandle, isCloseCall,
        liveAcquire, List.countP_cons, List.countP_nil]

/-- C4 witness: concrete failing calls (allocation failure for `Alloc`,
view/mmap failure for `MapFile`) are clean on both backends. -/
theorem c4_failure_cleanup_witness :
    cleanOnFailure (winAlloc { unicode := false, largePages := false } 64
        envAllocFail) ∧
    cleanOnFailure (posixAlloc false 64 envAllocFail) ∧
    cleanOnFailure
      (winMapFile { unicode := false, largePages := false } envViewFail) ∧
    cleanOnFailure (posixMapFile false envViewFail) := by
  have h1 := c4_failure_cleanup { unicode := false, largePages := false }
    false 64 envAllocFail
  have h2 := c4_failure_cleanup { unicode := false, largePages := false }
    false 64 envViewFail
  exact ⟨h1.1 rfl, h1.2.1 rfl, h2.2.2.1 rfl, h2.2.2.2 rfl⟩

/-- C5 counterexample: a 5-byte file in an environment where the native
size query fails (`GetFileSize` returns `INVALID_FILE_SIZE`, unchecked by
the source) is mapped "successfully" by the Windows backend, yet the
returned region's size field is 4294967295, not the file's length 5. -/
theorem c5_counterexample :
    envStatFail.fileSize = 5 ∧
    (winMapFile { unicode := false, largePages := false } envStatFail).ok =
      true ∧
    (winMapFile { unicode := false, largePages := false } envStatFail).out =
      some { base := 4096, size := 4294967295 } := by
  refine ⟨rfl, rfl, rfl⟩

/-- C5 amended: for a non-empty file of size `S`, a successful POSIX
`MapFile` always returns `size = S`; a successful Windows `MapFile`
returns `size = S` provided the native size query succeeds and
`S < 2^32` (the query's DWORD result is compared to 0 and stored
untruncated only under those conditions). -/
theorem c5_mapped_size (cfg : Config) (lp : Bool) (e : Env)
    (hnz : e.fileSize ≠ 0) :
    ((posixMapFile lp e).ok = true →
      (posixMapFile lp e).out.map Bytes.size = some e.fileSize) ∧
    (e.sizeQueryOk = true → e.fileSize < 2 ^ 32 →
      (winMapFile cfg e).ok = true →
      (winMapFile cfg e).out.map Bytes.size = some e.fileSize) := by
  constructor
  · cases ho : e.openOk <;> cases hsq : e.sizeQueryOk <;>
      cases hmf : e.mmapFileRet <;>
      simp_all [posixMapFile]
  · intro hsq hlt
    have hg : winGetFileSize e = e.fileSize := by
      rw [winGetFileSize, if_pos hsq]
      exact Nat.mod_eq_of_lt hlt
    rcases cfg with ⟨u, lpw⟩
    cases u <;> cases hw : e.widenOk <;> cases ho : e.openOk <;>
      cases hc : e.createMappingOk <;> by_cases hm : e.mapViewRet = 0 <;>
      simp_all [winMapFile]

/-- C5 witness: mapping the 5-byte file of `envAll` succeeds with
`size = 5` on both backends. -/
theorem c5_mapped_size_witness :
    ((posixMapFile false envAll).ok = true →
      (posixMapFile false envAll).out.map Bytes.size =
        some envAll.fileSize) ∧
    (envAll.sizeQueryOk = true → envAll.fileSize < 2 ^ 32 →
      (winMapFile { unicode := false, largePages := false } envAll).ok =
        true →
      (winMapFile { unicode := false, largePages := false }
          envAll).out.map Bytes.size = some envAll.fileSize) :=
  c5_mapped_size { unicode := false, largePages := false } false envAll
    (by decide)

/-- C6: evaluation at the failing input.  With a 5-byte file whose native
size query fails, the POSIX backend returns FALSE as the spec demands,
but the Windows backend — which never compares the `GetFileSize` return
against `INVALID_FILE_SIZE` — proceeds, returns TRUE, and stores the
failure sentinel 4294967295 as the region size. -/
theorem c6_size_query_unchecked :
    envStatFail.sizeQueryOk = false ∧
    (posixMapFile false envStatFail).ok = false ∧
    (winMapFile { unicode := false, largePages := false } envStatFail).ok =
      true ∧
    (winMapFile { unicode := false, largePages := false } envStatFail).out =
      some { base := 4096, size := 4294967295 } := by
  refine ⟨rfl, rfl, rfl, rfl⟩

set_option maxHeartbeats 2000000 in
/-- C7: on both backends, every operation that returns FALSE invokes the
reporter exactly once and every operation that returns TRUE invokes it
zero times; and no operation retries a failed native call — every kind of
native call other than the twice-read Windows size query and handle
closing occurs at most once per operation. -/
theorem c7_reporter_once_no_retry (cfg : Config) (lp : Bool) (size : Nat)
    (rf rm : Bytes) (e : Env) :
    (reporterSpec (winAlloc cfg size e) ∧
      noRetry (winAlloc cfg size e).calls) ∧
    (reporterSpec (posixAlloc lp size e) ∧
      noRetry (posixAlloc lp size e).calls) ∧
    (reporterSpec (winFree rf e) ∧ noRetry (winFree rf e).calls) ∧
    (reporterSpec (posixFree rf e) ∧ noRetry (posixFree rf e).calls) ∧
    (reporterSpec (winMapFile cfg e) ∧
      noRetry (winMapFile cfg e).calls) ∧
    (reporterSpec (posixMapFile lp e) ∧
      noRetry (posixMapFile lp e).calls) ∧
    (reporterSpec (winUnmapFile rm e) ∧
      noRetry (winUnmapFile rm e).calls) ∧
    (reporterSpec (posixUnmapFile rm e) ∧
      noRetry (posixUnmapFile rm e).calls) := by
  refine ⟨?_, ?_, ?_, ?_, ?_, ?_, ?_, ?_⟩
  · by_cases hv : e.virtualAllocRet = 0 <;>
      simp [winAlloc, hv, reporterSpec, noRetry, kindIdx] <;> decide
  · cases hma : e.mmapAllocRet <;>
      simp [posixAlloc, hma, reporterSpec, noRetry, kindIdx] <;> decide
  · cases hvf : e.virtualFreeOk rf.base <;>
      simp [winFree, hvf, reporterSpec, noRetry, kindIdx] <;> decide
  · cases hmu : e.munmapOk rf.base rf.size <;>
      simp [posixFree, hmu, reporterSpec, noRetry, kindIdx] <;> decide
  · rcases cfg with ⟨u, lpw⟩
    cases u <;> cases hww : e.widenOk <;> cases ho : e.openOk <;>
      by_cases hg : winGetFileSize e = 0 <;>
      cases hc : e.createMappingOk <;>
      by_cases hm : e.mapViewRet = 0 <;>
      simp_all [winMapFile, reporterSpec, noRetry, kindIdx] <;> decide
  · cases ho : e.openOk <;> cases hsq : e.sizeQueryOk <;>
      by_cases hz : e.fileSize = 0 <;> cases hmf : e.mmapFileRet <;>
      simp_all [posixMapFile, reporterSpec, noRetry, kindIdx] <;> decide
  · by_cases hz : rm.size = 0 <;> cases hv : e.unmapViewOk rm.base <;>
      simp [winUnmapFile, hz, hv, reporterSpec, noRetry, kindIdx] <;>
      decide
  · by_cases hb : rm.base = 0 <;>
      cases hmu : e.munmapOk rm.base rm.size <;>
      simp [posixUnmapFile, hb, hmu, reporterSpec, noRetry, kindIdx] <;>
      decide

/-- C8: under a `LARGE_PAGES` build, when the huge-page-backed native
allocation or mapping call fails, the operation returns FALSE having made
exactly that one allocation/mapping attempt, and no attempt with standard
pages is ever made — there is no fallback. -/
theorem c8_no_fallback (cfg : Config) (size : Nat) (e : Env)
    (hlp : cfg.largePages = true) :
    (e.virtualAllocRet = 0 →
      (winAlloc cfg size e).ok = false ∧
      (winAlloc cfg size e).calls.countP isAllocAttempt = 1 ∧
      (winAlloc cfg size e).calls.countP stdPageAttempt = 0) ∧
    (e.mmapAllocRet = none →
      (posixAlloc cfg.largePages size e).ok = false ∧
      (posixAlloc cfg.largePages size e).calls.countP isAllocAttempt =
        1 ∧
      (posixAlloc cfg.largePages size e).calls.countP stdPageAttempt =
        0) ∧
    (e.openOk = true → (cfg.unicode = true → e.widenOk = true) →
      winGetFileSize e ≠ 0 → e.createMappingOk = false →
      (winMapFile cfg e).ok = false ∧
      (winMapFile cfg e).calls.countP isMappingCall = 1 ∧
      (winMapFile cfg e).calls.countP stdPageAttempt = 0) ∧
    (e.openOk = true → e.sizeQueryOk = true → e.fileSize ≠ 0 →
      e.mmapFileRet = none →
      (posixMapFile cfg.largePages e).ok = false ∧
      (posixMapFile cfg.largePages e).calls.countP isMappingCall = 1 ∧
      (posixMapFile cfg.largePages e).calls.countP stdPageAttempt =
        0) := by
  refine ⟨?_, ?_, ?_, ?_⟩
  · intro hv
    simp [winAlloc, hv, hlp, isAllocAttempt, stdPageAttempt,
      List.countP_cons, List.countP_nil]
  · intro hma
    simp [posixAlloc, hma, hlp, isAllocAttempt, stdPageAttempt,
      List.countP_cons, List.countP_nil]
  · intro ho hwu hg hc
    rcases cfg with ⟨u, lpw⟩
    cases u <;>
      simp_all [winMapFile, isMappingCall, stdPageAttempt,
        List.countP_cons, List.countP_nil]
  · intro ho hsq hz hmf
    simp_all [posixMapFile, isMappingCall, stdPageAttempt,
      List.countP_cons, List.countP_nil]

/-- C8 witness: concrete huge-page build whose native allocation and
mapping calls fail: FALSE with one flagged attempt and no standard-page
attempt, on both backends and both operations. -/
theorem c8_no_fallback_witness :
    ((winAlloc { unicode := false, largePages := true } 64
        envAllocFail).ok = false ∧
      (winAlloc { unicode := false, largePages := true } 64
          envAllocFail).calls.countP isAllocAttempt = 1 ∧
      (winAlloc { unicode := false, largePages := true } 64
          envAllocFail).calls.countP stdPageAttempt = 0) ∧
    ((posixAlloc true 64 envAllocFail).ok = false ∧
      (posixAlloc true 64 envAllocFail).calls.countP isAllocAttempt =
        1 ∧
      (posixAlloc true 64 envAllocFail).calls.countP stdPageAttempt =
        0) ∧
    ((winMapFile { unicode := false, largePages := true } envMapFail).ok =
        false ∧
      (winMapFile { unicode := false, largePages := true }
          envMapFail).calls.countP isMappingCall = 1 ∧
      (winMapFile { unicode := false, largePages := true }
          envMapFail).calls.countP stdPageAttempt = 0) ∧
    ((posixMapFile true envMapFail).ok = false ∧
      (posixMapFile true envMapFail).calls.countP isMappingCall = 1 ∧
      (posixMapFile true envMapFail).calls.countP stdPageAttempt = 0) := by
  have h1 := c8_no_fallback { unicode := false, largePages := true } 64
    envAllocFail rfl
  have h2 := c8_no_fallback { unicode := false, largePages := true } 64
    envMapFail rfl
  exact ⟨h1.1 rfl, h1.2.1 rfl,
    h2.2.2.1 rfl (fun h => absurd h (by decide)) (by decide) rfl,
    h2.2.2.2 rfl rfl (by decide) rfl⟩

/-- C9 counterexample: a file of exactly 2^32 bytes is not zero-length,
yet the Windows `MapFile` — seeing only the low doubleword 0 of
`GetFileSize` — returns TRUE with the `(null, 0)` sentinel: the sentinel
does not arise only from zero-length file maps. -/
theorem c9_counterexample :
    envBigFile.fileSize ≠ 0 ∧
    (winMapFile { unicode := false, largePages := false } envBigFile).ok =
      true ∧
    (winMapFile { unicode := false, largePages := false } envBigFile).out =
      some sentinel := by
  refine ⟨by decide, rfl, rfl⟩

/-- C9 amended: every region written by a successful `Alloc` or `MapFile`
satisfies `size = 0` iff `base = null` (for `Alloc` given the platform
facts that zero-length native requests fail and successful `mmap` never
returns null, and `Alloc` never yields the sentinel); the sentinel arises
from exactly the maps whose native size query reports zero — on POSIX
exactly the zero-length files, on Windows also any file whose length is a
nonzero multiple of 2^32. -/
theorem c9_region_invariant (cfg : Config) (lp : Bool) (size : Nat)
    (e : Env)
    (hva : size = 0 → e.virtualAllocRet = 0)
    (hma : size = 0 → e.mmapAllocRet = none)
    (hmanz : e.mmapAllocRet ≠ some 0)
    (hmfnz : e.mmapFileRet ≠ some 0) :
    (∀ r, (winAlloc cfg size e).out = some r →
      (r.size = 0 ↔ r.base = 0) ∧ r ≠ sentinel) ∧
    (∀ r, (posixAlloc lp size e).out = some r →
      (r.size = 0 ↔ r.base = 0) ∧ r ≠ sentinel) ∧
    (∀ r, (winMapFile cfg e).out = some r → (r.size = 0 ↔ r.base = 0)) ∧
    ((winMapFile cfg e).out = some sentinel → winGetFileSize e = 0) ∧
    (∀ r, (posixMapFile lp e).out = some r →
      (r.size = 0 ↔ r.base = 0)) ∧
    ((posixMapFile lp e).out = some sentinel → e.fileSize = 0) := by
  refine ⟨?_, ?_, ?_, ?_, ?_, ?_⟩
  · intro r hr
    by_cases hv : e.virtualAllocRet = 0
    · simp [winAlloc, hv] at hr
    · simp [winAlloc, hv] at hr
      subst hr
      refine ⟨⟨fun h0 => absurd (hva h0) hv, fun hb => absurd hb hv⟩, ?_⟩
      simp [sentinel]
      intro hb
      exact absurd hb hv
  · intro r hr
    cases hmav : e.mmapAllocRet with
    | none => simp [posixAlloc, hmav] at hr
    | some b =>
      have hbnz : b ≠ 0 := by
        intro h0
        exact hmanz (by rw [hmav, h0])
      simp [posixAlloc, hmav] at hr
      subst hr
      refine ⟨⟨?_, fun hb => absurd hb hbnz⟩, ?_⟩
      · intro h0
        exact absurd (hma h0) (by rw [hmav]; simp)
      · simp [sentinel]
        intro hb
        exact absurd hb hbnz
  · intro r hr
    rcases cfg with ⟨u, lpw⟩
    cases u <;> cases hww : e.widenOk <;> cases ho : e.openOk <;>
      by_cases hg : winGetFileSize e = 0 <;>
      cases hc : e.createMappingOk <;>
      by_cases hm : e.mapViewRet = 0 <;>
      simp_all [winMapFile] <;> subst hr <;> simp_all
  · intro hr
    rcases cfg with ⟨u, lpw⟩
    cases u <;> cases hww : e.widenOk <;> cases ho : e.openOk <;>
      by_cases hg : winGetFileSize e = 0 <;>
      cases hc : e.createMappingOk <;>
      by_cases hm : e.mapViewRet = 0 <;>
      simp_all [winMapFile, sentinel]
  · intro r hr
    cases ho : e.openOk <;> cases hsq : e.sizeQueryOk <;>
      by_cases hz : e.fileSize = 0 <;> cases hmf : e.mmapFileRet <;>
      simp_all [posixMapFile] <;> subst hr <;> simp_all
  · intro hr
    cases ho : e.openOk <;> cases hsq : e.sizeQueryOk <;>
      by_cases hz : e.fileSize = 0 <;> cases hmf : e.mmapFileRet <;>
      simp_all [posixMapFile, sentinel]

/-- C9 witness: all hypotheses discharged on a concrete success
environment with a 5-byte file and a 64-byte allocation; the concrete
regions produced satisfy the invariant. -/
theorem c9_region_invariant_witness :
    (∀ r, (winAlloc { unicode := false, largePages := false } 64
        envAll).out = some r → (r.size = 0 ↔ r.base = 0) ∧ r ≠ sentinel) ∧
    (∀ r, (posixMapFile false envAll).out = some r →
      (r.size = 0 ↔ r.base = 0)) :=
  ⟨(c9_region_invariant { unicode := false, largePages := false } false 64
      envAll (by decide) (by decide) (by decide) (by decide)).1,
    (c9_region_invariant { unicode := false, largePages := false } false 64
      envAll (by decide) (by decide) (by decide) (by decide)).2.2.2.2.1⟩

/-- C3 counterexample: with identical native outcomes on both backends —
the file opens, the size query fails, every mapping call would succeed —
the POSIX `MapFile` fails (FALSE, one reporter invocation, no region)
while the Windows `MapFile` succeeds (TRUE, a region with the bogus size
4294967295): the backends' observable behaviors are not identical. -/
theorem c3_counterexample :
    obs (winMapFile { unicode := false, largePages := false }
        envStatFail) ≠
      obs (posixMapFile false envStatFail) := by
  decide

/-- C3 amended: the two backends produce identical observable behavior
(boolean result, output region, reporter count) for corresponding native
outcomes, provided: path widening succeeds on UNICODE builds, the native
size query succeeds and the file's length fits in 32 bits, the Windows
mapping-object creation succeeds, the Windows view outcome corresponds to
the POSIX `mmap` outcome (likewise for the allocation outcomes and the
release outcomes), and the region passed to `UnmapFile` satisfies
`size = 0` iff `base = null`.  Outside these conditions the backends can
diverge (failed size query, 2^32-and-larger files, invariant-violating
unmap regions). -/
theorem c3_backend_equivalence (cfg : Config) (size : Nat) (rf rm : Bytes)
    (e : Env)
    (hw : cfg.unicode = true → e.widenOk = true)
    (hsq : e.sizeQueryOk = true)
    (hfs : e.fileSize < 2 ^ 32)
    (hcm : e.createMappingOk = true)
    (hmapc : e.mmapFileRet =
      if e.mapViewRet = 0 then none else some e.mapViewRet)
    (halc : e.mmapAllocRet =
      if e.virtualAllocRet = 0 then none else some e.virtualAllocRet)
    (hfree : e.munmapOk rf.base rf.size = e.virtualFreeOk rf.base)
    (hinv : rm.size = 0 ↔ rm.base = 0)
    (hum : e.munmapOk rm.base rm.size = e.unmapViewOk rm.base) :
    obs (winAlloc cfg size e) = obs (posixAlloc cfg.largePages size e) ∧
    obs (winFree rf e) = obs (posixFree rf e) ∧
    obs (winMapFile cfg e) = obs (posixMapFile cfg.largePages e) ∧
    obs (winUnmapFile rm e) = obs (posixUnmapFile rm e) := by
  have hg : winGetFileSize e = e.fileSize := by
    rw [winGetFileSize, if_pos hsq]
    exact Nat.mod_eq_of_lt hfs
  refine ⟨?_, ?_, ?_, ?_⟩
  · by_cases hv : e.virtualAllocRet = 0 <;>
      simp [winAlloc, posixAlloc, halc, hv, obs]
  · cases hvf : e.virtualFreeOk rf.base <;>
      simp [winFree, posixFree, obs, hfree, hvf]
  · rcases cfg with ⟨u, lpw⟩
    cases u <;> cases ho : e.openOk <;>
      by_cases hz : e.fileSize = 0 <;>
      by_cases hm : e.mapViewRet = 0 <;>
      simp_all [winMapFile, posixMapFile, obs]
  · by_cases hz : rm.size = 0
    · have hb : rm.base = 0 := hinv.mp hz
      simp [winUnmapFile, posixUnmapFile, hz, hb, obs]
    · have hb : ¬ rm.base = 0 := fun h => hz (hinv.mpr h)
      cases hv : e.unmapViewOk rm.base <;>
        simp [winUnmapFile, posixUnmapFile, hz, hb, hum, hv, obs]

/-- C3 witness: on a concrete all-success environment with a 5-byte file,
corresponding outcomes, and an invariant-respecting region, all four
operations agree between the backends. -/
theorem c3_backend_equivalence_witness :
    obs (winAlloc { unicode := false, largePages := false } 64 envAll) =
      obs (posixAlloc false 64 envAll) ∧
    obs (winFree { base := 8192, size := 64 } envAll) =
      obs (posixFree { base := 8192, size := 64 } envAll) ∧
    obs (winMapFile { unicode := false, largePages := false } envAll) =
      obs (posixMapFile false envAll) ∧
    obs (winUnmapFile { base := 4096, size := 5 } envAll) =
      obs (posixUnmapFile { base := 4096, size := 5 } envAll) :=
  c3_backend_equivalence { unicode := false, largePages := false } 64
    { base := 8192, size := 64 } { base := 4096, size := 5 } envAll
    (fun h => by cases h) rfl (by decide) rfl (by decide) (by decide) rfl
    (by decide) rfl

/-- C10: the Windows `Free` reads only the region's `base` field — two
regions with equal base (and arbitrary sizes) produce the identical native
release call and identical result — while the POSIX `Free` passes the size
to `munmap`, so there are equal-base regions of different sizes whose
results differ. -/
theorem c10_free_field_dependence :
    (∀ (r1 r2 : Bytes) (e : Env), r1.base = r2.base →
      winFree r1 e = winFree r2 e) ∧
    (∃ (r1 r2 : Bytes) (e : Env), r1.base = r2.base ∧ r1.size ≠ r2.size ∧
      (posixFree r1 e).ok ≠ (posixFree r2 e).ok) := by
  constructor
  · intro r1 r2 e h
    unfold winFree
    rw [h]
  · exact ⟨{ base := 5, size := 1 }, { base := 5, size := 2 }, envSizeOne,
      rfl, by decide, by decide⟩

/-- C10 witness: two concrete regions with equal base and different sizes
on which the Windows `Free` agrees exactly. -/
theorem c10_free_field_dependence_witness :
    winFree { base := 5, size := 1 } envSizeOne =
      winFree { base := 5, size := 2 } envSizeOne :=
  c10_free_field_dependence.1 { base := 5, size := 1 }
    { base := 5, size := 2 } envSizeOne rfl

end OsH
